import Mathlib

/-!
Shallow embedding of the FishSpot maintenance status calculation engine
(`app/services/maintenance_calculator.py` together with the data model of
`app/schemas/maintenance.py`).

Modelling conventions:
* Python `datetime` values are modelled as `Int` timestamps (seconds since an
  arbitrary epoch); `timedelta.days` becomes floored division by 86400, which
  matches Python's floor semantics for `timedelta`.
* A counter field that may hold a non-numeric value at runtime (the source
  wraps every `int(...)` in `try/except`) is modelled as `Option Int`:
  `some n` is a value that `int(...)` converts to `n`, `none` is a missing or
  non-numeric value (where `int(...)` would raise and the handler substitutes
  a default).
* `MaintenanceLog.done_at` is a required string in the schema; three cases
  matter to the code: the empty string (falsy, so `if last_log.done_at`
  fails), a non-empty string `datetime.fromisoformat` rejects, and a parseable
  one.  It is modelled as `Option (Option Int)`: `none` = empty string,
  `some none` = non-empty but unparseable, `some (some t)` = parses to `t`.
* Python exceptions that escape a function are modelled with
  `Except String`; an uncaught `ValueError` becomes `Except.error`.
* Status literals stay as the source's strings ("ok", "due_soon", ...).
-/

/-- `MaintenanceRule` from `app/schemas/maintenance.py`.  `trigger_type` is a
`Literal["hours", "days", "trips", "sensor"]` in the schema but the calculator
also handles unknown values, so it is kept as a plain `String`. -/
structure MaintenanceRule where
  system_id : String
  part_name : String
  trigger_type : String
  interval_value : Int
  warning_before : Int
deriving Repr, DecidableEq

/-- `VesselState` from `app/schemas/maintenance.py`.  The counters are typed
`int` in the schema, but the calculator defends against non-numeric stored
values with `try/except`, so they are modelled as `Option Int` (`none` =
a value `int(...)` cannot convert). -/
structure VesselState where
  vessel_id : String
  engine_hours : Option Int
  total_trips : Option Int
  last_trip_date : Option String
deriving Repr, DecidableEq

/-- `MaintenanceLog` from `app/schemas/maintenance.py`.  `done_at` is encoded
by its parse outcome (see the module docstring); `created_at` is an optional
`datetime` in the schema, modelled as an optional timestamp. -/
structure MaintenanceLog where
  system_id : String
  part_name : String
  done_at : Option (Option Int)
  technician : String
  notes : String
  engine_hours_at_service : Option Int
  trips_at_service : Option Int
  created_at : Option Int
deriving Repr, DecidableEq

/-- `PartMaintenanceStatus` from `app/schemas/maintenance.py`. -/
structure PartMaintenanceStatus where
  name : String
  status : String
  trigger_type : String
  current_value : Option Int := none
  due_at_value : Option Int := none
  remaining : Option Int := none
  message : Option String := none
  last_service : Option MaintenanceLog := none
deriving Repr, DecidableEq

/-- `SystemMaintenanceStatus` from `app/schemas/maintenance.py`. -/
structure SystemMaintenanceStatus where
  system_id : String
  system_name : String
  status : String
  parts : List PartMaintenanceStatus
  summary_message : Option String := none
deriving Repr, DecidableEq

/-- `VesselMaintenanceSummary` from `app/schemas/maintenance.py`.
`generated_at` is the timestamp `datetime.now()` taken at the end of the
computation, modelled by the `now` parameter threaded through the engine. -/
structure VesselMaintenanceSummary where
  vessel_id : String
  vessel_name : String
  state : VesselState
  systems : List SystemMaintenanceStatus
  overall_status : String
  generated_at : Int
deriving Repr, DecidableEq

/-- Seconds per day, used to model `timedelta.days`. -/
def SECONDS_PER_DAY : Int := 86400

/-- The tail of `calculate_part_status` shared by the numeric branches
(`hours`, `trips`, `days`): computes `due_at`, `remaining`, the status string
and the message, and assembles the `PartMaintenanceStatus`. -/
def numericStatus (rule : MaintenanceRule) (last_log : Option MaintenanceLog)
    (current last : Int) (unit : String) : PartMaintenanceStatus :=
  let due_at : Int := last + rule.interval_value
  let remaining : Int := due_at - current
  let sm : String × String :=
    if remaining < 0 then
      ("overdue", rule.part_name ++ " is overdue by " ++ toString (-remaining) ++ " " ++ unit)
    else if remaining = 0 then
      ("due_soon", rule.part_name ++ " is due now")
    else if remaining ≤ rule.warning_before then
      ("due_soon", rule.part_name ++ " due in " ++ toString remaining ++ " " ++ unit)
    else
      ("ok", rule.part_name ++ " due in " ++ toString remaining ++ " " ++ unit)
  { name := rule.part_name
    status := sm.1
    trigger_type := rule.trigger_type
    current_value := some current
    due_at_value := some due_at
    remaining := some remaining
    message := some sm.2
    last_service := last_log }

/-- `calculate_part_status` from `maintenance_calculator.py`.  `now` models
`datetime.now()`.  The `days` branch calls `datetime.fromisoformat` on
`last_log.done_at` with no exception handler, so an unparseable non-empty
date string raises `ValueError`; this is the only failing path. -/
def calculate_part_status (now : Int) (rule : MaintenanceRule)
    (vessel_state : VesselState) (last_log : Option MaintenanceLog) :
    Except String PartMaintenanceStatus :=
  let trigger_type := rule.trigger_type
  let interval := rule.interval_value
  if trigger_type = "hours" then
    let current : Int := vessel_state.engine_hours.getD 0
    let last : Int :=
      match last_log with
      | some l => l.engine_hours_at_service.getD 0
      | none => 0
    Except.ok (numericStatus rule last_log current last "hours")
  else if trigger_type = "trips" then
    let current : Int := vessel_state.total_trips.getD 0
    let last : Int :=
      match last_log with
      | some l => l.trips_at_service.getD 0
      | none => 0
    Except.ok (numericStatus rule last_log current last "trips")
  else if trigger_type = "days" then
    match last_log with
    | some l =>
      match l.done_at with
      | some parsed =>
        match parsed with
        | some t =>
          let days_since_service : Int := Int.fdiv (now - t) SECONDS_PER_DAY
          Except.ok (numericStatus rule last_log days_since_service 0 "days")
        | none => Except.error "ValueError: invalid isoformat string"
      | none =>
        Except.ok (numericStatus rule last_log (interval + 1) 0 "days")
    | none =>
      Except.ok (numericStatus rule last_log (interval + 1) 0 "days")
  else if trigger_type = "sensor" then
    Except.ok
      { name := rule.part_name
        status := "ok"
        trigger_type := trigger_type
        message := some "Sensor monitoring active"
        last_service := last_log }
  else
    Except.ok
      { name := rule.part_name
        status := "ok"
        trigger_type := trigger_type
        message := some "Unknown trigger type"
        last_service := last_log }

/-- The key a `due_soon` part is minimised by in `calculate_system_status`:
`p.remaining if p.remaining is not None else 999999`. -/
def urgencyKey (p : PartMaintenanceStatus) : Int :=
  p.remaining.getD 999999

/-- Python's `min(parts, key=urgencyKey)`: the first element attaining the
minimal key (`min` keeps the earlier element on ties, hence `≤` in favour of
the head). -/
def minByUrgency : List PartMaintenanceStatus → Option PartMaintenanceStatus
  | [] => none
  | p :: ps =>
    match minByUrgency ps with
    | none => some p
    | some m => if urgencyKey p ≤ urgencyKey m then some p else some m

/-- `calculate_system_status` from `maintenance_calculator.py`.  `logs` is the
`part_name -> latest log` dictionary, modelled as an association list with
unique keys. -/
def calculate_system_status (now : Int) (system_id system_name : String)
    (rules : List MaintenanceRule) (vessel_state : VesselState)
    (logs : List (String × MaintenanceLog)) :
    Except String SystemMaintenanceStatus :=
  match rules.mapM (fun rule =>
      calculate_part_status now rule vessel_state (logs.lookup rule.part_name)) with
  | Except.error e => Except.error e
  | Except.ok part_statuses =>
  let ss : String × Option String :=
    if part_statuses.any (fun p => p.status = "overdue") then
      let overdue_parts := part_statuses.filter (fun p => p.status = "overdue")
      ("overdue", some (toString overdue_parts.length ++ " part(s) overdue"))
    else if part_statuses.any (fun p => p.status = "due_soon") then
      let due_soon_parts := part_statuses.filter (fun p => p.status = "due_soon")
      match minByUrgency due_soon_parts with
      | some most_urgent => ("due_soon", most_urgent.message)
      | none => ("due_soon", some (toString due_soon_parts.length ++ " part(s) due soon"))
    else
      ("operational", some "All systems operational")
  Except.ok
    { system_id := system_id
      system_name := system_name
      status := ss.1
      parts := part_statuses
      summary_message := ss.2 }

/-- `parse_dt` applied to `done_at` inside the log-dedup loop of
`calculate_vessel_maintenance_summary`: the empty string (modelled `none`)
makes `fromisoformat` raise, which `parse_dt` catches, returning `None`, and
an unparseable non-empty string (`some none`) likewise gives `None`. -/
def parseDone (d : Option (Option Int)) : Option Int :=
  match d with
  | none => none
  | some o => o

/-- The fall-through tail of the log-dedup cascade in
`calculate_vessel_maintenance_summary`: compare `done_at`, then
`engine_hours_at_service`, then `trips_at_service`.  Each stage replaces the
existing log only when both values are present and the new one is strictly
greater; otherwise control falls to the next stage. -/
def fallbackReplace (existing_log log : MaintenanceLog) : Bool :=
  (match parseDone log.done_at, parseDone existing_log.done_at with
   | some nd, some ed => nd > ed
   | _, _ => false) ||
  (match log.engine_hours_at_service, existing_log.engine_hours_at_service with
   | some nh, some eh => nh > eh
   | _, _ => false) ||
  (match log.trips_at_service, existing_log.trips_at_service with
   | some nt, some et => nt > et
   | _, _ => false)

/-- The full log-dedup decision of `calculate_vessel_maintenance_summary`:
`true` iff the new `log` replaces `existing_log` in the per-part dictionary.
`created_at` is compared first; the code `continue`s (short-circuits) only
when the comparison favours the new log, otherwise it falls through to
`fallbackReplace`. -/
def shouldReplace (existing_log log : MaintenanceLog) : Bool :=
  match log.created_at, existing_log.created_at with
  | some nc, some ec =>
    if nc > ec then true else fallbackReplace existing_log log
  | some _, none => true
  | none, _ => fallbackReplace existing_log log

/-- One step of the inner per-part dictionary update: insert `log` under its
`part_name`, or run the tie-break cascade against the existing entry. -/
def updateLogGroup (group : List (String × MaintenanceLog))
    (log : MaintenanceLog) : List (String × MaintenanceLog) :=
  match group.lookup log.part_name with
  | none => group ++ [(log.part_name, log)]
  | some existing_log =>
    if shouldReplace existing_log log then
      group.map (fun kv => if kv.1 = log.part_name then (kv.1, log) else kv)
    else
      group

/-- The `logs_by_system` grouping loop of
`calculate_vessel_maintenance_summary`: a Python dict of dicts, modelled as
insertion-ordered association lists. -/
def groupLogsBySystem (all_logs : List MaintenanceLog) :
    List (String × List (String × MaintenanceLog)) :=
  all_logs.foldl
    (fun acc log =>
      if acc.any (fun kv => kv.1 = log.system_id) then
        acc.map (fun kv =>
          if kv.1 = log.system_id then (kv.1, updateLogGroup kv.2 log) else kv)
      else
        acc ++ [(log.system_id, updateLogGroup [] log)])
    []

/-- The `rules_by_system` grouping loop of
`calculate_vessel_maintenance_summary`. -/
def groupRulesBySystem (all_rules : List MaintenanceRule) :
    List (String × List MaintenanceRule) :=
  all_rules.foldl
    (fun acc rule =>
      if acc.any (fun kv => kv.1 = rule.system_id) then
        acc.map (fun kv =>
          if kv.1 = rule.system_id then (kv.1, kv.2 ++ [rule]) else kv)
      else
        acc ++ [(rule.system_id, [rule])])
    []

/-- The static `system_names` lookup table of
`calculate_vessel_maintenance_summary`. -/
def system_names : List (String × String) :=
  [("engine", "Main Engine"),
   ("nets", "Nets & Gear"),
   ("safety", "Safety Equipment"),
   ("electronics", "Electronics"),
   ("hydraulics", "Hydraulic Systems"),
   ("cooling", "Cooling System"),
   ("fuel", "Fuel System")]

/-- Python's `str.title()`: uppercase each letter that follows a non-letter,
lowercase the rest, used for unknown system ids. -/
def pyTitle (s : String) : String :=
  String.mk
    (s.data.foldl
      (fun (acc : List Char × Bool) c =>
        let c2 :=
          if c.isAlpha then (if acc.2 then c.toLower else c.toUpper) else c
        (acc.1 ++ [c2], c.isAlpha))
      ([], false)).1

/-- The overall-status fold at the end of
`calculate_vessel_maintenance_summary`: priority order
overdue > due_soon > critical > offline > operational, first match wins. -/
def overallStatusOf (system_statuses : List SystemMaintenanceStatus) : String :=
  if system_statuses.any (fun s => s.status = "overdue") then "overdue"
  else if system_statuses.any (fun s => s.status = "due_soon") then "due_soon"
  else if system_statuses.any (fun s => s.status = "critical") then "critical"
  else if system_statuses.any (fun s => s.status = "offline") then "offline"
  else "operational"

/-- `calculate_vessel_maintenance_summary` from `maintenance_calculator.py`.
`now` models `datetime.now()` (used both for `days` triggers and for
`generated_at`). -/
def calculate_vessel_maintenance_summary (now : Int)
    (vessel_id vessel_name : String) (vessel_state : VesselState)
    (all_rules : List MaintenanceRule) (all_logs : List MaintenanceLog) :
    Except String VesselMaintenanceSummary :=
  match (groupRulesBySystem all_rules).mapM (fun kv =>
      let system_name := (system_names.lookup kv.1).getD (pyTitle kv.1)
      let logs := ((groupLogsBySystem all_logs).lookup kv.1).getD []
      calculate_system_status now kv.1 system_name kv.2 vessel_state logs) with
  | Except.error e => Except.error e
  | Except.ok system_statuses =>
  Except.ok
    { vessel_id := vessel_id
      vessel_name := vessel_name
      state := vessel_state
      systems := system_statuses
      overall_status := overallStatusOf system_statuses
      generated_at := now }

/-! ### Concrete inputs used by counterexamples and witnesses -/

/-- A vessel state with well-typed counters. -/
def sampleState : VesselState :=
  { vessel_id := "v1", engine_hours := some 85, total_trips := some 4,
    last_trip_date := none }

/-- An `hours` rule: interval 100, warn 20 (spec scenario 1). -/
def hoursRule : MaintenanceRule :=
  { system_id := "engine", part_name := "Engine oil", trigger_type := "hours",
    interval_value := 100, warning_before := 20 }

/-- A `days` rule: interval 180, warn 14 (spec scenario 3). -/
def daysRule : MaintenanceRule :=
  { system_id := "engine", part_name := "Engine oil", trigger_type := "days",
    interval_value := 180, warning_before := 14 }

/-- A log whose `done_at` is a non-empty string `datetime.fromisoformat`
rejects (for example `"not-a-date"`). -/
def badDateLog : MaintenanceLog :=
  { system_id := "engine", part_name := "Engine oil", done_at := some none,
    technician := "t", notes := "", engine_hours_at_service := none,
    trips_at_service := none, created_at := none }

/-- First log for the C3 scenario: `created_at` = 2 (the later one),
`done_at` parses to 0. -/
def logCreatedLater : MaintenanceLog :=
  { system_id := "engine", part_name := "Engine oil", done_at := some (some 0),
    technician := "t", notes := "", engine_hours_at_service := none,
    trips_at_service := none, created_at := some 2 }

/-- Second log for the C3 scenario: `created_at` = 1 (the earlier one) but
`done_at` parses to 5 (the later service date). -/
def logDoneLater : MaintenanceLog :=
  { system_id := "engine", part_name := "Engine oil", done_at := some (some 5),
    technician := "t", notes := "", engine_hours_at_service := none,
    trips_at_service := none, created_at := some 1 }

/-- Log A of spec scenario 5: no `created_at`, `engine_hours_at_service` 50,
unparseable `done_at`. -/
def logNoCreated : MaintenanceLog :=
  { system_id := "engine", part_name := "Engine oil", done_at := some none,
    technician := "t", notes := "", engine_hours_at_service := some 50,
    trips_at_service := none, created_at := none }

/-- Log B of spec scenario 5: `created_at` present,
`engine_hours_at_service` 30, unparseable `done_at`. -/
def logWithCreated : MaintenanceLog :=
  { system_id := "engine", part_name := "Engine oil", done_at := some none,
    technician := "t", notes := "", engine_hours_at_service := some 30,
    trips_at_service := none, created_at := some 1 }

/-- A vessel state past the 100-hour due point (spec scenario 2). -/
def overdueState : VesselState :=
  { vessel_id := "v1", engine_hours := some 120, total_trips := some 4,
    last_trip_date := none }

/-- The part status `calculate_part_status` produces for `hoursRule` on
`overdueState` with no log: remaining -20, overdue. -/
def overduePart : PartMaintenanceStatus :=
  numericStatus hoursRule none 120 0 "hours"

/-- The system status `calculate_system_status` produces for `[hoursRule]`
on `overdueState` with no logs. -/
def overdueSystem : SystemMaintenanceStatus :=
  { system_id := "engine", system_name := "Main Engine", status := "overdue",
    parts := [overduePart], summary_message := some "1 part(s) overdue" }

/-- The part status `calculate_part_status` produces for `hoursRule` on
`sampleState` with no log: remaining 15, due soon. -/
def dueSoonPart : PartMaintenanceStatus :=
  numericStatus hoursRule none 85 0 "hours"

/-- The system status `calculate_system_status` produces for `[hoursRule]`
on `sampleState` with no logs. -/
def dueSoonSystem : SystemMaintenanceStatus :=
  { system_id := "engine", system_name := "Main Engine", status := "due_soon",
    parts := [dueSoonPart], summary_message := dueSoonPart.message }

/-- The summary `calculate_vessel_maintenance_summary` produces for
`[hoursRule]` on `sampleState` with no logs, at `now = 0`. -/
def sampleSummary : VesselMaintenanceSummary :=
  { vessel_id := "v1", vessel_name := "Vessel", state := sampleState,
    systems := [dueSoonSystem], overall_status := "due_soon",
    generated_at := 0 }

/-- A system status carrying the reserved `critical` value (the vessel-level
fold recognizes it even though `calculate_system_status` never produces
it). -/
def criticalSystem : SystemMaintenanceStatus :=
  { system_id := "sensors", system_name := "Sensors", status := "critical",
    parts := [], summary_message := none }

/-! ### Lemmas about `numericStatus` -/

lemma numericStatus_remaining (rule : MaintenanceRule)
    (log : Option MaintenanceLog) (current last : Int) (unit : String) :
    (numericStatus rule log current last unit).remaining =
      some (last + rule.interval_value - current) := rfl

lemma numericStatus_current (rule : MaintenanceRule)
    (log : Option MaintenanceLog) (current last : Int) (unit : String) :
    (numericStatus rule log current last unit).current_value = some current := rfl

lemma numericStatus_due_at (rule : MaintenanceRule)
    (log : Option MaintenanceLog) (current last : Int) (unit : String) :
    (numericStatus rule log current last unit).due_at_value =
      some (last + rule.interval_value) := rfl

lemma numericStatus_status_eq (rule : MaintenanceRule)
    (log : Option MaintenanceLog) (current last : Int) (unit : String) :
    (numericStatus rule log current last unit).status =
      (if last + rule.interval_value - current < 0 then "overdue"
       else if last + rule.interval_value - current = 0 then "due_soon"
       else if last + rule.interval_value - current ≤ rule.warning_before then "due_soon"
       else "ok") := by
  show (if last + rule.interval_value - current < 0 then
          ((("overdue" : String), (rule.part_name ++ " is overdue by " ++
            toString (-(last + rule.interval_value - current)) ++ " " ++ unit))) else _).1 = _
  split_ifs <;> rfl

lemma numericStatus_status_spec (rule : MaintenanceRule)
    (log : Option MaintenanceLog) (current last : Int) (unit : String)
    (hw : 0 ≤ rule.warning_before) :
    ((numericStatus rule log current last unit).status = "overdue" ↔
        last + rule.interval_value - current < 0) ∧
    ((numericStatus rule log current last unit).status = "due_soon" ↔
        0 ≤ last + rule.interval_value - current ∧
          last + rule.interval_value - current ≤ rule.warning_before) ∧
    ((numericStatus rule log current last unit).status = "ok" ↔
        rule.warning_before < last + rule.interval_value - current) := by
  rw [numericStatus_status_eq]
  split_ifs with h1 h2 h3 <;> simp <;> omega

/-! ### Per-trigger equations for `calculate_part_status` -/

lemma calculate_part_status_hours (now : Int) (rule : MaintenanceRule)
    (vessel_state : VesselState) (last_log : Option MaintenanceLog)
    (h : rule.trigger_type = "hours") :
    calculate_part_status now rule vessel_state last_log =
      Except.ok (numericStatus rule last_log (vessel_state.engine_hours.getD 0)
        (match last_log with
         | some l => l.engine_hours_at_service.getD 0
         | none => 0) "hours") := by
  simp [calculate_part_status, h]

lemma calculate_part_status_trips (now : Int) (rule : MaintenanceRule)
    (vessel_state : VesselState) (last_log : Option MaintenanceLog)
    (h : rule.trigger_type = "trips") :
    calculate_part_status now rule vessel_state last_log =
      Except.ok (numericStatus rule last_log (vessel_state.total_trips.getD 0)
        (match last_log with
         | some l => l.trips_at_service.getD 0
         | none => 0) "trips") := by
  simp [calculate_part_status, h]

lemma calculate_part_status_days_no_log (now : Int) (rule : MaintenanceRule)
    (vessel_state : VesselState) (h : rule.trigger_type = "days") :
    calculate_part_status now rule vessel_state none =
      Except.ok (numericStatus rule none (rule.interval_value + 1) 0 "days") := by
  simp [calculate_part_status, h]

lemma calculate_part_status_days_empty_done (now : Int) (rule : MaintenanceRule)
    (vessel_state : VesselState) (l : MaintenanceLog)
    (h : rule.trigger_type = "days") (hd : l.done_at = none) :
    calculate_part_status now rule vessel_state (some l) =
      Except.ok (numericStatus rule (some l) (rule.interval_value + 1) 0 "days") := by
  simp [calculate_part_status, h, hd]

lemma calculate_part_status_days_parsed (now : Int) (rule : MaintenanceRule)
    (vessel_state : VesselState) (l : MaintenanceLog) (t : Int)
    (h : rule.trigger_type = "days") (hd : l.done_at = some (some t)) :
    calculate_part_status now rule vessel_state (some l) =
      Except.ok (numericStatus rule (some l)
        (Int.fdiv (now - t) SECONDS_PER_DAY) 0 "days") := by
  simp [calculate_part_status, h, hd]

lemma calculate_part_status_days_bad_done (now : Int) (rule : MaintenanceRule)
    (vessel_state : VesselState) (l : MaintenanceLog)
    (h : rule.trigger_type = "days") (hd : l.done_at = some none) :
    calculate_part_status now rule vessel_state (some l) =
      Except.error "ValueError: invalid isoformat string" := by
  simp [calculate_part_status, h, hd]

/-! ### Lemmas about `minByUrgency` -/

lemma minByUrgency_eq_none (parts : List PartMaintenanceStatus) :
    minByUrgency parts = none ↔ parts = [] := by
  cases parts with
  | nil => simp [minByUrgency]
  | cons p ps =>
    simp only [minByUrgency]
    cases minByUrgency ps
    · simp
    · dsimp only
      split_ifs <;> simp

lemma minByUrgency_mem : ∀ (parts : List PartMaintenanceStatus)
    (p : PartMaintenanceStatus), minByUrgency parts = some p → p ∈ parts := by
  intro parts
  induction parts with
  | nil => intro p h; simp [minByUrgency] at h
  | cons q qs ih =>
    intro p h
    simp only [minByUrgency] at h
    cases hq : minByUrgency qs with
    | none =>
      rw [hq] at h
      dsimp only at h
      simp at h
      simp [h]
    | some m =>
      rw [hq] at h
      dsimp only at h
      by_cases hle : urgencyKey q ≤ urgencyKey m
      · rw [if_pos hle] at h
        simp at h
        simp [h]
      · rw [if_neg hle] at h
        simp at h
        subst h
        exact List.mem_cons_of_mem q (ih _ hq)

lemma minByUrgency_le : ∀ (parts : List PartMaintenanceStatus)
    (p : PartMaintenanceStatus), minByUrgency parts = some p →
    ∀ q ∈ parts, urgencyKey p ≤ urgencyKey q := by
  intro parts
  induction parts with
  | nil => intro p h; simp [minByUrgency] at h
  | cons q qs ih =>
    intro p h
    simp only [minByUrgency] at h
    cases hq : minByUrgency qs with
    | none =>
      rw [hq] at h
      dsimp only at h
      simp at h
      subst h
      intro r hr
      rcases List.mem_cons.mp hr with hr | hr
      · subst hr; exact le_refl _
      · rw [minByUrgency_eq_none] at hq
        subst hq
        simp at hr
    | some m =>
      rw [hq] at h
      dsimp only at h
      by_cases hle : urgencyKey q ≤ urgencyKey m
      · rw [if_pos hle] at h
        simp at h
        subst h
        intro r hr
        rcases List.mem_cons.mp hr with hr | hr
        · subst hr; exact le_refl _
        · exact le_trans hle (ih _ hq r hr)
      · rw [if_neg hle] at h
        simp at h
        subst h
        intro r hr
        rcases List.mem_cons.mp hr with hr | hr
        · subst hr; exact le_of_lt (lt_of_not_le hle)
        · exact ih _ hq r hr

/-- Packaging of the status trichotomy of `numericStatus`. -/
lemma numericStatus_thresholds (rule : MaintenanceRule)
    (log : Option MaintenanceLog) (current last : Int) (unit : String)
    (hw : 0 ≤ rule.warning_before) :
    ∃ r : Int, (numericStatus rule log current last unit).remaining = some r ∧
      ((numericStatus rule log current last unit).status = "overdue" ↔ r < 0) ∧
      ((numericStatus rule log current last unit).status = "due_soon" ↔
        0 ≤ r ∧ r ≤ rule.warning_before) ∧
      ((numericStatus rule log current last unit).status = "ok" ↔
        rule.warning_before < r) := by
  refine ⟨last + rule.interval_value - current, numericStatus_remaining _ _ _ _ _, ?_⟩
  exact numericStatus_status_spec rule log current last unit hw

/-- C1: for every rule with a numeric trigger (`hours`, `trips` or `days`)
and `warning_before ≥ 0`, whenever `calculate_part_status` returns a result,
its status satisfies: `overdue` iff `remaining < 0`, `due_soon` iff
`0 ≤ remaining ≤ warning_before` (so the `remaining = 0` boundary is
`due_soon`, never `overdue`), and `ok` iff `remaining > warning_before`. -/
theorem part_status_threshold_trichotomy (now : Int) (rule : MaintenanceRule)
    (vessel_state : VesselState) (last_log : Option MaintenanceLog)
    (p : PartMaintenanceStatus)
    (htrig : rule.trigger_type = "hours" ∨ rule.trigger_type = "trips" ∨
      rule.trigger_type = "days")
    (hw : 0 ≤ rule.warning_before)
    (hok : calculate_part_status now rule vessel_state last_log = Except.ok p) :
    ∃ r : Int, p.remaining = some r ∧
      (p.status = "overdue" ↔ r < 0) ∧
      (p.status = "due_soon" ↔ 0 ≤ r ∧ r ≤ rule.warning_before) ∧
      (p.status = "ok" ↔ rule.warning_before < r) := by
  rcases htrig with h | h | h
  · rw [calculate_part_status_hours now rule vessel_state last_log h] at hok
    injection hok with hok
    subst hok
    exact numericStatus_thresholds rule last_log _ _ _ hw
  · rw [calculate_part_status_trips now rule vessel_state last_log h] at hok
    injection hok with hok
    subst hok
    exact numericStatus_thresholds rule last_log _ _ _ hw
  · cases last_log with
    | none =>
      rw [calculate_part_status_days_no_log now rule vessel_state h] at hok
      injection hok with hok
      subst hok
      exact numericStatus_thresholds rule none _ _ _ hw
    | some l =>
      cases hd : l.done_at with
      | none =>
        rw [calculate_part_status_days_empty_done now rule vessel_state l h hd] at hok
        injection hok with hok
        subst hok
        exact numericStatus_thresholds rule (some l) _ _ _ hw
      | some parsed =>
        cases parsed with
        | none =>
          rw [calculate_part_status_days_bad_done now rule vessel_state l h hd] at hok
          exact absurd hok (by simp)
        | some t =>
          rw [calculate_part_status_days_parsed now rule vessel_state l t h hd] at hok
          injection hok with hok
          subst hok
          exact numericStatus_thresholds rule (some l) _ _ _ hw

/-- Witness for C1: spec scenario 1 (hours rule, interval 100, warning 20,
engine hours 85, no log) gives `remaining = 15`, hence status `due_soon`. -/
theorem part_status_threshold_trichotomy_witness :
    ∃ r : Int,
      (numericStatus hoursRule none 85 0 "hours").remaining = some r ∧
      ((numericStatus hoursRule none 85 0 "hours").status = "overdue" ↔ r < 0) ∧
      ((numericStatus hoursRule none 85 0 "hours").status = "due_soon" ↔
        0 ≤ r ∧ r ≤ hoursRule.warning_before) ∧
      ((numericStatus hoursRule none 85 0 "hours").status = "ok" ↔
        hoursRule.warning_before < r) :=
  part_status_threshold_trichotomy 0 hoursRule sampleState none
    (numericStatus hoursRule none 85 0 "hours")
    (Or.inl rfl) (by decide) (by rfl)

/-- C2: for `hours`/`trips` rules the due point is `anchor + interval_value`
and `remaining = due - current`, exactly, where the anchor comes from the
last log's counter (0 when no log or no counter) and the current value from
the vessel state; for a `days` rule with no log the current value is forced
to `interval_value + 1`, so `remaining = -1` and the part is overdue. -/
theorem part_status_due_and_remaining_exact (now : Int) (rule : MaintenanceRule)
    (vessel_state : VesselState) (last_log : Option MaintenanceLog) :
    (∀ (h : Int) (p : PartMaintenanceStatus), rule.trigger_type = "hours" →
      vessel_state.engine_hours = some h →
      calculate_part_status now rule vessel_state last_log = Except.ok p →
      p.current_value = some h ∧
      p.due_at_value = some ((match last_log with
        | some l => l.engine_hours_at_service.getD 0
        | none => 0) + rule.interval_value) ∧
      p.remaining = some ((match last_log with
        | some l => l.engine_hours_at_service.getD 0
        | none => 0) + rule.interval_value - h)) ∧
    (∀ (tr : Int) (p : PartMaintenanceStatus), rule.trigger_type = "trips" →
      vessel_state.total_trips = some tr →
      calculate_part_status now rule vessel_state last_log = Except.ok p →
      p.current_value = some tr ∧
      p.due_at_value = some ((match last_log with
        | some l => l.trips_at_service.getD 0
        | none => 0) + rule.interval_value) ∧
      p.remaining = some ((match last_log with
        | some l => l.trips_at_service.getD 0
        | none => 0) + rule.interval_value - tr)) ∧
    (rule.trigger_type = "days" → last_log = none →
      ∃ p : PartMaintenanceStatus,
        calculate_part_status now rule vessel_state last_log = Except.ok p ∧
        p.current_value = some (rule.interval_value + 1) ∧
        p.due_at_value = some rule.interval_value ∧
        p.remaining = some (-1) ∧
        p.status = "overdue") := by
  refine ⟨?_, ?_, ?_⟩
  · intro h p htr hv hok
    rw [calculate_part_status_hours now rule vessel_state last_log htr] at hok
    injection hok with hok
    subst hok
    rw [numericStatus_current, numericStatus_due_at, numericStatus_remaining, hv]
    exact ⟨rfl, rfl, rfl⟩
  · intro tr p htr hv hok
    rw [calculate_part_status_trips now rule vessel_state last_log htr] at hok
    injection hok with hok
    subst hok
    rw [numericStatus_current, numericStatus_due_at, numericStatus_remaining, hv]
    exact ⟨rfl, rfl, rfl⟩
  · intro htr hnone
    subst hnone
    refine ⟨numericStatus rule none (rule.interval_value + 1) 0 "days",
      calculate_part_status_days_no_log now rule vessel_state htr, ?_, ?_, ?_, ?_⟩
    · rw [numericStatus_current]
    · rw [numericStatus_due_at]
      congr 1
      omega
    · rw [numericStatus_remaining]
      congr 1
      omega
    · rw [numericStatus_status_eq]
      rw [if_pos]
      omega

/-- Witness for C2: spec scenarios 1 (hours, no log: due at 100, remaining
15), 4 (trips with a log anchored at 2: due at 5, remaining 1) and 3 (days,
no log: remaining -1, overdue), all at concrete inputs. -/
theorem part_status_due_and_remaining_exact_witness :
    ((numericStatus hoursRule none 85 0 "hours").current_value = some 85 ∧
     (numericStatus hoursRule none 85 0 "hours").due_at_value = some 100 ∧
     (numericStatus hoursRule none 85 0 "hours").remaining = some 15) ∧
    (∃ p : PartMaintenanceStatus,
      calculate_part_status 0 daysRule sampleState none = Except.ok p ∧
      p.current_value = some 181 ∧
      p.due_at_value = some 180 ∧
      p.remaining = some (-1) ∧
      p.status = "overdue") := by
  constructor
  · have := (part_status_due_and_remaining_exact 0 hoursRule sampleState none).1
      85 (numericStatus hoursRule none 85 0 "hours") rfl (by rfl) (by rfl)
    exact this
  · have := (part_status_due_and_remaining_exact 0 daysRule sampleState none).2.2
      rfl rfl
    exact this

/-- C8: a `sensor` rule always yields status `ok` with the placeholder
message, and a rule with an unrecognized trigger type always yields status
`ok` with the diagnostic message; in both cases `current_value`,
`due_at_value` and `remaining` are unset and no exception is raised. -/
theorem part_status_sensor_and_unknown (now : Int) (rule : MaintenanceRule)
    (vessel_state : VesselState) (last_log : Option MaintenanceLog) :
    (rule.trigger_type = "sensor" →
      calculate_part_status now rule vessel_state last_log = Except.ok
        { name := rule.part_name, status := "ok",
          trigger_type := rule.trigger_type, current_value := none,
          due_at_value := none, remaining := none,
          message := some "Sensor monitoring active",
          last_service := last_log }) ∧
    (rule.trigger_type ≠ "hours" → rule.trigger_type ≠ "trips" →
     rule.trigger_type ≠ "days" → rule.trigger_type ≠ "sensor" →
      calculate_part_status now rule vessel_state last_log = Except.ok
        { name := rule.part_name, status := "ok",
          trigger_type := rule.trigger_type, current_value := none,
          due_at_value := none, remaining := none,
          message := some "Unknown trigger type",
          last_service := last_log }) := by
  constructor
  · intro h
    simp [calculate_part_status, h]
  · intro h1 h2 h3 h4
    simp [calculate_part_status, h1, h2, h3, h4]

/-- Witness for C8: a concrete `sensor` rule and a concrete rule with
trigger type `"voltage"` both return `ok` placeholder statuses. -/
theorem part_status_sensor_and_unknown_witness :
    calculate_part_status 0
      { system_id := "engine", part_name := "Engine oil",
        trigger_type := "sensor", interval_value := 100, warning_before := 20 }
      sampleState none = Except.ok
        { name := "Engine oil", status := "ok", trigger_type := "sensor",
          current_value := none, due_at_value := none, remaining := none,
          message := some "Sensor monitoring active", last_service := none } ∧
    calculate_part_status 0
      { system_id := "engine", part_name := "Engine oil",
        trigger_type := "voltage", interval_value := 100, warning_before := 20 }
      sampleState none = Except.ok
        { name := "Engine oil", status := "ok", trigger_type := "voltage",
          current_value := none, due_at_value := none, remaining := none,
          message := some "Unknown trigger type", last_service := none } :=
  ⟨(part_status_sensor_and_unknown 0
      { system_id := "engine", part_name := "Engine oil",
        trigger_type := "sensor", interval_value := 100, warning_before := 20 }
      sampleState none).1 rfl,
   (part_status_sensor_and_unknown 0
      { system_id := "engine", part_name := "Engine oil",
        trigger_type := "voltage", interval_value := 100, warning_before := 20 }
      sampleState none).2 (by decide) (by decide) (by decide) (by decide)⟩

/-- C5: `calculate_system_status` reports `overdue` with a count-of-overdue
summary when any part is overdue; otherwise `due_soon` with the message of a
most-urgent due-soon part (smallest urgency key, i.e. smallest `remaining`);
otherwise `operational` with the fixed all-systems-operational summary.  In
particular a system with an overdue part is never `operational` or
`due_soon`. -/
theorem system_rollup (now : Int) (system_id system_name : String)
    (rules : List MaintenanceRule) (vessel_state : VesselState)
    (logs : List (String × MaintenanceLog)) (s : SystemMaintenanceStatus)
    (hok : calculate_system_status now system_id system_name rules
      vessel_state logs = Except.ok s) :
    ((∃ p ∈ s.parts, p.status = "overdue") →
      s.status = "overdue" ∧
      s.summary_message = some
        (toString (s.parts.filter (fun p => p.status = "overdue")).length ++
          " part(s) overdue")) ∧
    ((∀ p ∈ s.parts, p.status ≠ "overdue") →
     (∃ p ∈ s.parts, p.status = "due_soon") →
      s.status = "due_soon" ∧
      ∃ p ∈ s.parts, p.status = "due_soon" ∧ s.summary_message = p.message ∧
        ∀ q ∈ s.parts, q.status = "due_soon" → urgencyKey p ≤ urgencyKey q) ∧
    ((∀ p ∈ s.parts, p.status ≠ "overdue" ∧ p.status ≠ "due_soon") →
      s.status = "operational" ∧
      s.summary_message = some "All systems operational") := by
  unfold calculate_system_status at hok
  split at hok
  next e heq => exact absurd hok (by simp)
  next ps heq =>
    dsimp only at hok
    injection hok with hok
    subst hok
    dsimp only
    refine ⟨?_, ?_, ?_⟩
    · rintro ⟨p, hp, hstat⟩
      have hov : (ps.any fun q => q.status = "overdue") = true := by
        simp only [List.any_eq_true, decide_eq_true_eq]
        exact ⟨p, hp, hstat⟩
      simp only [hov, if_true]
      constructor <;> trivial
    · intro hno
      rintro ⟨p, hp, hstat⟩
      have hov : ¬ ((ps.any fun q => q.status = "overdue") = true) := by
        simp only [List.any_eq_true, decide_eq_true_eq]
        rintro ⟨q, hq, hqs⟩
        exact hno q hq hqs
      have hds : (ps.any fun q => q.status = "due_soon") = true := by
        simp only [List.any_eq_true, decide_eq_true_eq]
        exact ⟨p, hp, hstat⟩
      simp only [if_neg hov, if_pos hds]
      have hpf : p ∈ ps.filter (fun q => q.status = "due_soon") :=
        List.mem_filter.mpr ⟨hp, decide_eq_true hstat⟩
      cases hmin : minByUrgency (ps.filter (fun q => q.status = "due_soon")) with
      | none =>
        rw [minByUrgency_eq_none] at hmin
        rw [hmin] at hpf
        simp at hpf
      | some m =>
        have hmem := minByUrgency_mem _ _ hmin
        have hmps := List.mem_filter.mp hmem
        refine ⟨rfl, m, hmps.1, of_decide_eq_true hmps.2, rfl, ?_⟩
        intro q hq hqs
        exact minByUrgency_le _ _ hmin q
          (List.mem_filter.mpr ⟨hq, decide_eq_true hqs⟩)
    · intro hnone
      have hov : ¬ ((ps.any fun q => q.status = "overdue") = true) := by
        simp only [List.any_eq_true, decide_eq_true_eq]
        rintro ⟨q, hq, hqs⟩
        exact (hnone q hq).1 hqs
      have hds : ¬ ((ps.any fun q => q.status = "due_soon") = true) := by
        simp only [List.any_eq_true, decide_eq_true_eq]
        rintro ⟨q, hq, hqs⟩
        exact (hnone q hq).2 hqs
      simp only [if_neg hov, if_neg hds]
      constructor <;> trivial

/-- Witness for C5: one rule past its due point (spec scenario 2) makes the
system `overdue` with summary "1 part(s) overdue". -/
theorem system_rollup_witness :
    overdueSystem.status = "overdue" ∧
    overdueSystem.summary_message = some
      (toString (overdueSystem.parts.filter
        (fun p => p.status = "overdue")).length ++ " part(s) overdue") :=
  (system_rollup 0 "engine" "Main Engine" [hoursRule] overdueState []
      overdueSystem (by rfl)).1
    ⟨overduePart, by simp [overdueSystem], by rfl⟩

/-- C6: the vessel-level fold obeys the priority order
overdue > due_soon > critical > offline > operational with first match
winning, and `calculate_vessel_maintenance_summary` sets `overall_status` to
exactly this fold of the computed system statuses; in particular a vessel
with an overdue system is always reported `overdue`. -/
theorem vessel_overall_priority :
    (∀ systems : List SystemMaintenanceStatus,
      ((∃ s ∈ systems, s.status = "overdue") →
        overallStatusOf systems = "overdue") ∧
      ((∀ s ∈ systems, s.status ≠ "overdue") →
       (∃ s ∈ systems, s.status = "due_soon") →
        overallStatusOf systems = "due_soon") ∧
      ((∀ s ∈ systems, s.status ≠ "overdue" ∧ s.status ≠ "due_soon") →
       (∃ s ∈ systems, s.status = "critical") →
        overallStatusOf systems = "critical") ∧
      ((∀ s ∈ systems, s.status ≠ "overdue" ∧ s.status ≠ "due_soon" ∧
          s.status ≠ "critical") →
       (∃ s ∈ systems, s.status = "offline") →
        overallStatusOf systems = "offline") ∧
      ((∀ s ∈ systems, s.status ≠ "overdue" ∧ s.status ≠ "due_soon" ∧
          s.status ≠ "critical" ∧ s.status ≠ "offline") →
        overallStatusOf systems = "operational")) ∧
    (∀ (now : Int) (vessel_id vessel_name : String)
       (vessel_state : VesselState) (all_rules : List MaintenanceRule)
       (all_logs : List MaintenanceLog) (sum : VesselMaintenanceSummary),
      calculate_vessel_maintenance_summary now vessel_id vessel_name
        vessel_state all_rules all_logs = Except.ok sum →
      sum.overall_status = overallStatusOf sum.systems) := by
  constructor
  · intro systems
    have hany : ∀ st : String, ((systems.any fun s => s.status = st) = true) ↔
        ∃ s ∈ systems, s.status = st := by
      intro st
      simp only [List.any_eq_true, decide_eq_true_eq]
    have hnot : ∀ st : String, (∀ s ∈ systems, s.status ≠ st) →
        ¬ ((systems.any fun s => s.status = st) = true) := by
      intro st hall hc
      obtain ⟨s, hs, hst⟩ := (hany st).mp hc
      exact hall s hs hst
    refine ⟨?_, ?_, ?_, ?_, ?_⟩
    · intro hex
      unfold overallStatusOf
      rw [if_pos ((hany "overdue").mpr hex)]
    · intro hno hex
      unfold overallStatusOf
      rw [if_neg (hnot "overdue" hno), if_pos ((hany "due_soon").mpr hex)]
    · intro hno hex
      unfold overallStatusOf
      rw [if_neg (hnot "overdue" (fun s hs => (hno s hs).1)),
        if_neg (hnot "due_soon" (fun s hs => (hno s hs).2)),
        if_pos ((hany "critical").mpr hex)]
    · intro hno hex
      unfold overallStatusOf
      rw [if_neg (hnot "overdue" (fun s hs => (hno s hs).1)),
        if_neg (hnot "due_soon" (fun s hs => (hno s hs).2.1)),
        if_neg (hnot "critical" (fun s hs => (hno s hs).2.2)),
        if_pos ((hany "offline").mpr hex)]
    · intro hno
      unfold overallStatusOf
      rw [if_neg (hnot "overdue" (fun s hs => (hno s hs).1)),
        if_neg (hnot "due_soon" (fun s hs => (hno s hs).2.1)),
        if_neg (hnot "critical" (fun s hs => (hno s hs).2.2.1)),
        if_neg (hnot "offline" (fun s hs => (hno s hs).2.2.2))]
  · intro now vessel_id vessel_name vessel_state all_rules all_logs sum hok
    unfold calculate_vessel_maintenance_summary at hok
    split at hok
    next e heq => exact absurd hok (by simp)
    next ss heq =>
      injection hok with hok
      subst hok
      rfl

/-- Witness for C6: a lone `critical` system folds to `critical` (showing a
non-vacuous instance of the third priority rule), and on a concrete
computed summary `overall_status` agrees with the fold of its systems. -/
theorem vessel_overall_priority_witness :
    overallStatusOf [criticalSystem] = "critical" ∧
    sampleSummary.overall_status = overallStatusOf sampleSummary.systems :=
  ⟨(vessel_overall_priority.1 [criticalSystem]).2.2.1
      (by intro s hs; simp at hs; subst hs; exact ⟨by decide, by decide⟩)
      ⟨criticalSystem, by simp, rfl⟩,
   vessel_overall_priority.2 0 "v1" "Vessel" sampleState [hoursRule] []
     sampleSummary (by rfl)⟩

/-- C9: the engine is read-only on its inputs: whenever
`calculate_vessel_maintenance_summary` returns a summary, the `VesselState`
embedded in it is exactly the one passed in (the embedding is a pure
function of `(rules, state, logs)`, mirroring the fact that the source
never assigns to any field of `vessel_state`, the rules or the logs). -/
theorem vessel_state_frame (now : Int) (vessel_id vessel_name : String)
    (vessel_state : VesselState) (all_rules : List MaintenanceRule)
    (all_logs : List MaintenanceLog) (sum : VesselMaintenanceSummary)
    (hok : calculate_vessel_maintenance_summary now vessel_id vessel_name
      vessel_state all_rules all_logs = Except.ok sum) :
    sum.state = vessel_state := by
  unfold calculate_vessel_maintenance_summary at hok
  split at hok
  next e heq => exact absurd hok (by simp)
  next ss heq =>
    injection hok with hok
    subst hok
    rfl

/-- Witness for C9: on a concrete computation the returned summary embeds
the input state unchanged. -/
theorem vessel_state_frame_witness : sampleSummary.state = sampleState :=
  vessel_state_frame 0 "v1" "Vessel" sampleState [hoursRule] [] sampleSummary
    (by rfl)

/-- C10: with an empty rule collection the summary always has an empty
systems list and overall status `operational`, whatever the vessel state
and however many logs exist — logs for untracked parts never influence the
result. -/
theorem empty_rules_operational (now : Int) (vessel_id vessel_name : String)
    (vessel_state : VesselState) (all_logs : List MaintenanceLog) :
    ∃ sum : VesselMaintenanceSummary,
      calculate_vessel_maintenance_summary now vessel_id vessel_name
        vessel_state [] all_logs = Except.ok sum ∧
      sum.systems = [] ∧
      sum.overall_status = "operational" := by
  exact
    ⟨{ vessel_id := vessel_id, vessel_name := vessel_name,
       state := vessel_state, systems := [],
       overall_status := "operational", generated_at := now },
     rfl, rfl, rfl⟩

/-- C3: evaluation at the failing input.  The claim says that when both logs
have `created_at` the later `created_at` wins and no later comparator is
consulted.  In the code the `continue` is taken only when the comparison
favours the NEW log; here the existing log `logCreatedLater` has the later
`created_at` (2 > 1), yet the new log `logDoneLater` still wins because the
cascade falls through to the `done_at` comparison (5 > 0). -/
theorem log_selector_created_at_not_decisive :
    logCreatedLater.created_at = some 2 ∧
    logDoneLater.created_at = some 1 ∧
    groupLogsBySystem [logCreatedLater, logDoneLater] =
      [("engine", [("Engine oil", logDoneLater)])] :=
  ⟨rfl, rfl, by rfl⟩

/-- C4: evaluation at the failing input (spec scenario 5).  `logNoCreated`
has no `created_at` and `engine_hours_at_service = 50`; `logWithCreated` has
`created_at` present and `engine_hours_at_service = 30`.  Presented as
[A, B] the selection picks B (presence of `created_at` wins), but presented
as [B, A] it picks A (the `created_at` rule is not consulted when the NEW
log lacks `created_at`, and the hours comparison 50 > 30 decides), so the
winner depends on the input ordering. -/
theorem log_selector_order_dependent :
    groupLogsBySystem [logNoCreated, logWithCreated] =
      [("engine", [("Engine oil", logWithCreated)])] ∧
    groupLogsBySystem [logWithCreated, logNoCreated] =
      [("engine", [("Engine oil", logNoCreated)])] ∧
    logNoCreated ≠ logWithCreated :=
  ⟨by rfl, by rfl, by decide⟩

/-- C7: evaluation at the failing input.  A `days` rule whose last log has a
non-empty `done_at` that `datetime.fromisoformat` rejects makes
`calculate_part_status` raise `ValueError` instead of recovering with a safe
default: the `days` branch performs the parse outside any `try/except`. -/
theorem days_unparseable_date_raises :
    calculate_part_status 0 daysRule sampleState (some badDateLog) =
      Except.error "ValueError: invalid isoformat string" := by
  rfl
